import Mathlib

/-!
Verification of the quota-gated LLM usage accounting and the contract-signing
state machine of the docbiz backend.

The definitions below are shallow embeddings of the Python source:
  backend/apps/llm/models.py        (LLMModel, LLMUsage, LLMQuota)
  backend/apps/contracts/models.py  (Contract, SignatureField)
Django model rows become Lean structures, optional columns become Option,
Decimal columns become exact rationals, datetimes become natural-number
timestamps passed explicitly, and raising methods return the raised exception
together with the database state after the call.
-/

namespace Docbiz

/-! ## LLM quota (backend/apps/llm/models.py, class LLMQuota) -/

/-- The quota row of one organization, restricted to the columns read or
written by `can_make_request` and `record_usage` (models.py 396-548).
`monthly_token_limit`, `monthly_request_limit` and `monthly_cost_limit` are
nullable columns (null means unlimited per the model help text); the three
`_used_current_month` counters default to 0; `is_suspended` is a boolean
column. -/
structure LLMQuota where
  monthly_token_limit : Option Nat
  tokens_used_current_month : Nat
  monthly_request_limit : Option Nat
  requests_used_current_month : Nat
  monthly_cost_limit : Option ℚ
  cost_used_current_month : ℚ
  is_suspended : Bool
deriving Repr, DecidableEq

/-- Transcription of the guard at models.py 527-529:
`if (self.monthly_token_limit and self.tokens_used_current_month + estimated_tokens > self.monthly_token_limit)`.
Python truthiness makes both None and 0 falsy, so a limit of 0 skips the
check exactly like a null limit. -/
def LLMQuota.tokenLimitHit (q : LLMQuota) (estimated_tokens : Nat) : Bool :=
  match q.monthly_token_limit with
  | none => false
  | some l => l != 0 && decide (q.tokens_used_current_month + estimated_tokens > l)

/-- Transcription of the guard at models.py 532-534:
`if (self.monthly_request_limit and self.requests_used_current_month + 1 > self.monthly_request_limit)`. -/
def LLMQuota.requestLimitHit (q : LLMQuota) : Bool :=
  match q.monthly_request_limit with
  | none => false
  | some l => l != 0 && decide (q.requests_used_current_month + 1 > l)

/-- Transcription of the guard at models.py 537-539:
`if (self.monthly_cost_limit and self.cost_used_current_month + estimated_cost > self.monthly_cost_limit)`.
A Decimal is falsy exactly when it is zero. -/
def LLMQuota.costLimitHit (q : LLMQuota) (estimated_cost : ℚ) : Bool :=
  match q.monthly_cost_limit with
  | none => false
  | some l => decide (l ≠ 0) && decide (q.cost_used_current_month + estimated_cost > l)

/-- LLMQuota.can_make_request (models.py 521-541): returns the
(can_proceed, message) pair with the exact message strings of the source. -/
def LLMQuota.can_make_request (q : LLMQuota) (estimated_tokens : Nat)
    (estimated_cost : ℚ) : Bool × String :=
  if q.is_suspended then
    (false, "LLM usage is suspended for this organization")
  else if q.tokenLimitHit estimated_tokens then
    (false, "Monthly token limit exceeded")
  else if q.requestLimitHit then
    (false, "Monthly request limit exceeded")
  else if q.costLimitHit estimated_cost then
    (false, "Monthly cost limit exceeded")
  else
    (true, "OK")

/-- LLMQuota.record_usage (models.py 543-548): increments the three monthly
counters on the loaded instance and writes them back with save(). -/
def LLMQuota.record_usage (q : LLMQuota) (tokens_prompt tokens_completion : Nat)
    (cost : ℚ) : LLMQuota :=
  { q with
      tokens_used_current_month :=
        q.tokens_used_current_month + (tokens_prompt + tokens_completion),
      requests_used_current_month := q.requests_used_current_month + 1,
      cost_used_current_month := q.cost_used_current_month + cost }

/-! ### Specification-side view of the quota gate (spec section 4.1) -/

/-- Denial reasons named as in the spec. -/
inductive DenyReason
  | suspended
  | token_limit_exceeded
  | request_limit_exceeded
  | cost_limit_exceeded
deriving Repr, DecidableEq

/-- A QuotaGate decision as the spec describes it. -/
inductive Decision
  | Allowed
  | Denied (reason : DenyReason)
deriving Repr, DecidableEq

/-- A limit dimension is skipped when it is null or denotes unlimited; per the
source an explicit 0 also denotes unlimited (see the truthiness guards above). -/
def natLimitSkipped : Option Nat → Bool
  | none => true
  | some l => l == 0

/-- Skip condition for the decimal cost limit. -/
def ratLimitSkipped : Option ℚ → Bool
  | none => true
  | some l => l == 0

/-- QuotaGate.check, written from the wording of spec section 4.1: suspension
first, short-circuiting all others; then the token, request and cost checks in
that fixed order, each skipped when its limit is null or unlimited; the first
failing check determines the single denial reason. -/
def QuotaGate.check (q : LLMQuota) (estimated_tokens : Nat)
    (estimated_cost : ℚ) : Decision :=
  if q.is_suspended then
    .Denied .suspended
  else if !natLimitSkipped q.monthly_token_limit &&
      decide (q.tokens_used_current_month + estimated_tokens >
        (q.monthly_token_limit.getD 0)) then
    .Denied .token_limit_exceeded
  else if !natLimitSkipped q.monthly_request_limit &&
      decide (q.requests_used_current_month + 1 >
        (q.monthly_request_limit.getD 0)) then
    .Denied .request_limit_exceeded
  else if !ratLimitSkipped q.monthly_cost_limit &&
      decide (q.cost_used_current_month + estimated_cost >
        (q.monthly_cost_limit.getD 0)) then
    .Denied .cost_limit_exceeded
  else
    .Allowed

/-- Maps the (can_proceed, message) pair of the source to the Decision of the
spec, message string by message string. -/
def decisionOfResult : Bool × String → Option Decision
  | (true, _) => some .Allowed
  | (false, msg) =>
    if msg = "LLM usage is suspended for this organization" then
      some (.Denied .suspended)
    else if msg = "Monthly token limit exceeded" then
      some (.Denied .token_limit_exceeded)
    else if msg = "Monthly request limit exceeded" then
      some (.Denied .request_limit_exceeded)
    else if msg = "Monthly cost limit exceeded" then
      some (.Denied .cost_limit_exceeded)
    else
      none

/-! ### Interleaving model of record_usage (claim C7)

record_usage has no select_for_update, F-expression or other storage-level
atomic increment: it increments the counters of the already loaded Django
instance in Python and writes the computed values back with save(). Projected
onto the token counter, one call therefore performs two database
interactions: a load of the row and a store of the value computed from the
loaded copy. Two concurrent calls for the same organization interleave these
interactions arbitrarily. -/

/-- One in-flight record_usage call, projected onto the token counter.
pc = 0: the row has not been loaded yet; pc = 1: the row value is held in
`reg` and the store is pending; pc = 2: the call has finished. -/
structure RecordThread where
  pc : Nat
  reg : Nat
deriving Repr, DecidableEq

/-- One database interaction of a record_usage call adding `tokens` tokens:
at pc = 0 the load copies the row into `reg`; at pc = 1 the save writes
`reg + tokens` back to the row. -/
def recordStep (tokens : Nat) (db : Nat) (t : RecordThread) : Nat × RecordThread :=
  match t.pc with
  | 0 => (db, { pc := 1, reg := db })
  | 1 => (t.reg + tokens, { t with pc := 2 })
  | _ => (db, t)

/-- Runs two concurrent record_usage calls, each adding `tokens`, under a
schedule: true steps the first call, false steps the second. The state is the
stored token counter together with both thread states. -/
def runRecordSchedule (tokens : Nat) :
    List Bool → Nat × RecordThread × RecordThread → Nat × RecordThread × RecordThread
  | [], s => s
  | b :: rest, (db, ta, tb) =>
    if b then
      let s := recordStep tokens db ta
      runRecordSchedule tokens rest (s.1, s.2, tb)
    else
      let s := recordStep tokens db tb
      runRecordSchedule tokens rest (s.1, ta, s.2)

/-! ## LLM usage records (backend/apps/llm/models.py, LLMModel and LLMUsage) -/

/-- The pricing columns of an LLM model row: Decimal prices per 1000 tokens
(models.py 144-157), modelled as exact rationals. -/
structure LLMModel where
  input_price : ℚ
  output_price : ℚ
deriving Repr, DecidableEq

/-- LLMModel.calculate_cost (models.py 190-194):
`(Decimal(input_tokens) / 1000) * self.input_price + (Decimal(output_tokens) / 1000) * self.output_price`. -/
def LLMModel.calculate_cost (m : LLMModel) (input_tokens output_tokens : Nat) : ℚ :=
  ((input_tokens : ℚ) / 1000) * m.input_price +
    ((output_tokens : ℚ) / 1000) * m.output_price

/-- One usage row, restricted to the columns touched by LLMUsage.save
(models.py 368-390). The model foreign key is kept as an Option to mirror the
`if self.model` truthiness guard in save; token counts default to 0 and the
two cost columns default to Decimal 0 on a fresh row. -/
structure LLMUsage where
  model : Option LLMModel
  tokens_prompt : Nat
  tokens_completion : Nat
  tokens_total : Nat
  cost_estimated : ℚ
  cost_calculated : ℚ
  input_context : String
  generated_content : String
deriving Repr, DecidableEq

/-- The truncation applied at models.py 383-386: texts longer than 1000
characters are cut to 1000 characters and an ellipsis marker is appended. -/
def truncateContent (s : String) : String :=
  if s.length > 1000 then s.take 1000 ++ "..." else s

/-- LLMUsage.save (models.py 368-390): recomputes tokens_total as the sum of
the two token counts; recomputes cost_calculated from the model prices when a
model is set and tokens_total is positive; defaults cost_estimated to
cost_calculated when the caller left it 0 and the calculated cost is
positive; truncates the two content columns. -/
def LLMUsage.save (u : LLMUsage) : LLMUsage :=
  let tokens_total := u.tokens_prompt + u.tokens_completion
  let cost_calculated :=
    match u.model with
    | some m =>
      if tokens_total > 0 then m.calculate_cost u.tokens_prompt u.tokens_completion
      else u.cost_calculated
    | none => u.cost_calculated
  let cost_estimated :=
    if u.cost_estimated = 0 ∧ cost_calculated > 0 then cost_calculated
    else u.cost_estimated
  { u with
      tokens_total := tokens_total,
      cost_calculated := cost_calculated,
      cost_estimated := cost_estimated,
      input_context := truncateContent u.input_context,
      generated_content := truncateContent u.generated_content }

/-! ## Contract signing (backend/apps/contracts/models.py) -/

/-- The contract status enum (models.py 13-21). -/
inductive ContractStatus
  | draft
  | sent
  | viewed
  | signed
  | completed
  | expired
  | declined
  | cancelled
deriving Repr, DecidableEq

/-- The signature field type enum (models.py 396-401). -/
inductive FieldType
  | signature
  | initial
  | date
  | text
  | checkbox
deriving Repr, DecidableEq

/-- The Python exceptions raised by the embedded operations. ValidationError
carries its message; NameError carries the name that failed to resolve. The
error taxonomy of the spec maps InvalidStateError and AlreadySignedError to
the ValidationError with the corresponding message. -/
inductive PyExc
  | validationError (msg : String)
  | nameError (missing : String)
deriving Repr, DecidableEq

/-- One signature field row, restricted to the columns read or written by the
embedded operations (models.py 393-488). `assigned_to` holds the party key or
null; `signing_token` and `signed_data` are encrypted text columns storing a
blank string when unset; `signed_at` is a nullable datetime. -/
structure SignatureField where
  field_type : FieldType
  required : Bool
  assigned_to : Option Nat
  signing_token : String
  signed_data : String
  signed_at : Option Nat
deriving Repr, DecidableEq

/-- One contract row together with its signature field rows (models.py
184-325). Timestamps are natural-number instants; `now` is passed to each
operation explicitly. -/
structure Contract where
  status : ContractStatus
  sent_at : Option Nat
  expires_at : Option Nat
  completed_at : Option Nat
  signature_fields : List SignatureField
deriving Repr, DecidableEq

/-- SignatureField.is_signed (models.py 468-470):
`bool(self.signed_data and self.signed_at)`. A blank signed_data string is
falsy, so the field counts as signed exactly when signed_data is non-blank
and signed_at is set. -/
def SignatureField.is_signed (f : SignatureField) : Bool :=
  f.signed_data != "" && f.signed_at.isSome

/-- Contract.is_expired (models.py 313-317):
`if self.expires_at and timezone.now() > self.expires_at`. -/
def Contract.is_expired (c : Contract) (now : Nat) : Bool :=
  match c.expires_at with
  | some e => now > e
  | none => false

/-- SignatureField.sign (models.py 472-488), acting on field `i` of contract
`c` at instant `now`, returning the raised exception (if any) together with
the database state after the call. The source is:

  if self.is_signed(): raise ValidationError("Field has already been signed")
  self.signed_data = data
  self.signed_at = timezone.now()
  self.save()                                       # field row persisted here
  if self.field_type == FieldType.SIGNATURE: ...    # line 482
  self.contract.check_completion()                  # line 488

Line 482 evaluates the bare name `FieldType` inside the method body. Python
resolves a name in a method through the local, enclosing-function, module and
builtin scopes only — a class body is not an enclosing scope — and
contracts/models.py has no module-level `FieldType` (the enum is a class
attribute of SignatureField), so every call that passes the already-signed
check raises NameError for `FieldType` after the field row has been saved.
The party stamping (483-485) and the completion re-check (488) are thus
unreachable dead code; moreover no class in the repository defines a method
`check_completion`, so line 488 would raise AttributeError even if it were
reached. The ip_address parameter of the source is used only in the
unreachable party-stamping branch and is omitted here. An out-of-range `i`
corresponds to no source call (the method runs on an existing row) and
returns the state unchanged. -/
def SignatureField.sign (c : Contract) (i : Nat) (data : String) (now : Nat) :
    Option PyExc × Contract :=
  match c.signature_fields.get? i with
  | none => (none, c)
  | some f =>
    if f.is_signed then
      (some (.validationError "Field has already been signed"), c)
    else
      (some (.nameError "FieldType"),
       { c with signature_fields :=
          c.signature_fields.set i { f with signed_data := data, signed_at := some now } })

/-- Contract.send_for_signature (models.py 287-311) at instant `now`,
returning the raised exception (if any) together with the database state
after the call. Both ValidationError raises (289-290 and 293-296) happen
before any assignment, so the error branches leave the state untouched. On
the success path the source sets status and sent_at, sets expires_at to now
plus 30 days when it is not already set, and then runs

  for field in self.signature_fields.all():
      field.generate_signing_token()
  self.save()

generate_signing_token (462-466) assigns `secrets.token_urlsafe(32)` to
`self.signing_token` and returns it without saving; the loop iterates over
fresh instances fetched by the queryset and never calls field.save(), and the
final self.save() writes only the contract row. The freshly generated tokens
are therefore never persisted to the signature field rows, and the stored
fields are unchanged by the call. -/
def Contract.send_for_signature (c : Contract) (now : Nat) :
    Option PyExc × Contract :=
  if c.status != ContractStatus.draft then
    (some (.validationError "Only draft contracts can be sent for signature"), c)
  else if c.signature_fields.any (fun f => f.assigned_to.isNone) then
    (some (.validationError "All signature fields must be assigned before sending"), c)
  else
    (none,
     { c with
        status := ContractStatus.sent,
        sent_at := some now,
        expires_at :=
          match c.expires_at with
          | none => some (now + 30 * 86400)
          | some e => some e })

/-! ## Theorems -/

/-- The token guard of the source agrees with the skip-or-compare reading of
the spec. -/
theorem tokenLimitHit_eq_spec (q : LLMQuota) (t : Nat) :
    q.tokenLimitHit t =
      (!natLimitSkipped q.monthly_token_limit &&
        decide (q.tokens_used_current_month + t > q.monthly_token_limit.getD 0)) := by
  rcases h : q.monthly_token_limit with _ | l <;>
    simp [LLMQuota.tokenLimitHit, natLimitSkipped, h, bne]

/-- The request guard of the source agrees with the skip-or-compare reading of
the spec. -/
theorem requestLimitHit_eq_spec (q : LLMQuota) :
    q.requestLimitHit =
      (!natLimitSkipped q.monthly_request_limit &&
        decide (q.requests_used_current_month + 1 > q.monthly_request_limit.getD 0)) := by
  rcases h : q.monthly_request_limit with _ | l <;>
    simp [LLMQuota.requestLimitHit, natLimitSkipped, h, bne]

/-- The cost guard of the source agrees with the skip-or-compare reading of
the spec. -/
theorem costLimitHit_eq_spec (q : LLMQuota) (c : ℚ) :
    q.costLimitHit c =
      (!ratLimitSkipped q.monthly_cost_limit &&
        decide (q.cost_used_current_month + c > q.monthly_cost_limit.getD 0)) := by
  rcases h : q.monthly_cost_limit with _ | l
  · simp [LLMQuota.costLimitHit, ratLimitSkipped, h]
  · simp only [LLMQuota.costLimitHit, ratLimitSkipped, h, Option.getD_some]
    congr 1
    by_cases hl : l = 0 <;> simp [hl]

/-- C3: can_make_request refines the QuotaGate policy of the spec — the
suspension check comes first and short-circuits all others; the token,
request and cost checks follow in that fixed order, each skipped when its
limit is null/unlimited; the first failing check determines the single denial
reason, as witnessed by the message-to-reason map. -/
theorem can_make_request_refines_quota_gate (q : LLMQuota) (t : Nat) (c : ℚ) :
    decisionOfResult (q.can_make_request t c) = some (QuotaGate.check q t c) := by
  unfold LLMQuota.can_make_request QuotaGate.check
  rw [tokenLimitHit_eq_spec, requestLimitHit_eq_spec, costLimitHit_eq_spec]
  split_ifs <;> rfl

/-- C9: a monthly limit stored as 0 behaves exactly like a null (unlimited)
limit in can_make_request, in every dimension and for every usage state: the
truthiness guard skips the check entirely. -/
theorem zero_limit_behaves_as_null (q : LLMQuota) (t : Nat) (c : ℚ) :
    ({ q with monthly_token_limit := some 0 } : LLMQuota).can_make_request t c =
      ({ q with monthly_token_limit := none } : LLMQuota).can_make_request t c ∧
    ({ q with monthly_request_limit := some 0 } : LLMQuota).can_make_request t c =
      ({ q with monthly_request_limit := none } : LLMQuota).can_make_request t c ∧
    ({ q with monthly_cost_limit := some 0 } : LLMQuota).can_make_request t c =
      ({ q with monthly_cost_limit := none } : LLMQuota).can_make_request t c := by
  refine ⟨?_, ?_, ?_⟩ <;>
    simp [LLMQuota.can_make_request, LLMQuota.tokenLimitHit,
      LLMQuota.requestLimitHit, LLMQuota.costLimitHit]

/-- C2 counterexample: a quota whose monthly_token_limit is the non-null
value 0 with current usage 1 satisfies the condition of the claim for a
denial (the limit is not null and usage + 0 exceeds it), yet the code allows
the request: the truthiness guard treats the 0 limit as unlimited. -/
theorem token_denial_null_reading_counterexample :
    (⟨some 0, 1, none, 0, none, 0, false⟩ : LLMQuota).monthly_token_limit ≠ none ∧
    (⟨some 0, 1, none, 0, none, 0, false⟩ : LLMQuota).tokens_used_current_month + 0 >
      (⟨some 0, 1, none, 0, none, 0, false⟩ : LLMQuota).monthly_token_limit.getD 0 ∧
    (⟨some 0, 1, none, 0, none, 0, false⟩ : LLMQuota).is_suspended = false ∧
    (⟨some 0, 1, none, 0, none, 0, false⟩ : LLMQuota).can_make_request 0 0 = (true, "OK") ∧
    (⟨some 0, 1, none, 0, none, 0, false⟩ : LLMQuota).can_make_request 0 0 ≠
      (false, "Monthly token limit exceeded") := by
  refine ⟨by decide, by decide, rfl, by decide, by decide⟩

/-- The token guard holds exactly when the limit is set, non-zero and
exceeded by the projected usage. -/
theorem tokenLimitHit_iff (q : LLMQuota) (t : Nat) :
    q.tokenLimitHit t = true ↔
      ∃ l, q.monthly_token_limit = some l ∧ l ≠ 0 ∧
        q.tokens_used_current_month + t > l := by
  rcases h : q.monthly_token_limit with _ | l <;>
    simp [LLMQuota.tokenLimitHit, h]

/-- C2 (amended): for a non-suspended quota, can_make_request denies with the
token-limit message iff the token limit is non-null, non-zero and exceeded by
current usage plus the estimate; and the spec scenario holds: with limit 1000
and usage 950, asking for 100 tokens is denied on the token dimension and
asking for 40 is allowed. -/
theorem token_denial_iff (q : LLMQuota) (t : Nat) (c : ℚ)
    (hs : q.is_suspended = false) :
    (q.can_make_request t c = (false, "Monthly token limit exceeded") ↔
      ∃ l, q.monthly_token_limit = some l ∧ l ≠ 0 ∧
        q.tokens_used_current_month + t > l) ∧
    (⟨some 1000, 950, none, 0, none, 0, false⟩ : LLMQuota).can_make_request 100 0 =
      (false, "Monthly token limit exceeded") ∧
    (⟨some 1000, 950, none, 0, none, 0, false⟩ : LLMQuota).can_make_request 40 0 =
      (true, "OK") := by
  refine ⟨?_, by decide, by decide⟩
  rw [← tokenLimitHit_iff q t]
  simp only [LLMQuota.can_make_request, hs, Bool.false_eq_true, if_false]
  constructor
  · intro h
    by_cases ht : q.tokenLimitHit t = true
    · exact ht
    · exfalso
      rw [if_neg ht] at h
      split_ifs at h <;> exact absurd h (by decide)
  · intro ht
    rw [if_pos ht]

/-- Witness for token_denial_iff at a concrete quota. -/
theorem token_denial_iff_witness :
    (⟨some 1000, 950, none, 0, none, 0, false⟩ : LLMQuota).is_suspended = false ∧
    (((⟨some 1000, 950, none, 0, none, 0, false⟩ : LLMQuota).can_make_request 100 0 =
        (false, "Monthly token limit exceeded") ↔
      ∃ l, (⟨some 1000, 950, none, 0, none, 0, false⟩ : LLMQuota).monthly_token_limit = some l ∧
        l ≠ 0 ∧
        (⟨some 1000, 950, none, 0, none, 0, false⟩ : LLMQuota).tokens_used_current_month + 100 > l) ∧
    (⟨some 1000, 950, none, 0, none, 0, false⟩ : LLMQuota).can_make_request 100 0 =
      (false, "Monthly token limit exceeded") ∧
    (⟨some 1000, 950, none, 0, none, 0, false⟩ : LLMQuota).can_make_request 40 0 =
      (true, "OK")) :=
  ⟨rfl, token_denial_iff (⟨some 1000, 950, none, 0, none, 0, false⟩ : LLMQuota) 100 0 rfl⟩

/-- C7 counterexample: two concurrent record_usage calls, each adding 5
tokens from a counter at 0, scheduled load A, load B, store A, store B. Both
calls run to completion (pc = 2), yet the stored counter ends at 5, not at
0 + 2 * 5: the second store overwrites the first because the update is a
non-atomic read-modify-write. -/
theorem record_usage_lost_update :
    (runRecordSchedule 5 [true, false, true, false] (0, ⟨0, 0⟩, ⟨0, 0⟩)).1 = 5 ∧
    (runRecordSchedule 5 [true, false, true, false] (0, ⟨0, 0⟩, ⟨0, 0⟩)).2.1.pc = 2 ∧
    (runRecordSchedule 5 [true, false, true, false] (0, ⟨0, 0⟩, ⟨0, 0⟩)).2.2.pc = 2 ∧
    (5 : Nat) ≠ 0 + 2 * 5 := by
  decide

/-- C7 (amended): record_usage is a plain read-modify-write with no storage
level atomicity, so only non-overlapping calls are guaranteed exact: K
successive calls add exactly K times the call total to
tokens_used_current_month, and two concurrent calls whose load-store pairs do
not interleave (serial schedule) add exactly 2 * T. -/
theorem record_usage_sequential_exact (q : LLMQuota) (p c : Nat) (cost : ℚ)
    (K : Nat) (pre T : Nat) :
    ((fun r : LLMQuota => r.record_usage p c cost)^[K] q).tokens_used_current_month =
      q.tokens_used_current_month + K * (p + c) ∧
    (runRecordSchedule T [true, true, false, false] (pre, ⟨0, 0⟩, ⟨0, 0⟩)).1 =
      pre + 2 * T := by
  constructor
  · induction K with
    | zero => simp
    | succ k ih =>
      rw [Function.iterate_succ_apply']
      have hstep :
          ((fun r : LLMQuota => r.record_usage p c cost)
              ((fun r : LLMQuota => r.record_usage p c cost)^[k] q)).tokens_used_current_month =
            ((fun r : LLMQuota => r.record_usage p c cost)^[k] q).tokens_used_current_month +
              (p + c) := rfl
      rw [hstep, ih]
      ring
  · have hrun :
        runRecordSchedule T [true, true, false, false] (pre, ⟨0, 0⟩, ⟨0, 0⟩) =
          (pre + T + T, ⟨2, pre⟩, ⟨2, pre + T⟩) := rfl
    rw [hrun]
    show pre + T + T = pre + 2 * T
    ring

/-- C8: after save, tokens_total is the sum of the prompt and completion
counts, and cost_calculated is the exact linear price
prompt/1000 * input_price + completion/1000 * output_price of the model, for
every fresh usage row (cost_calculated at its column default 0) with a model
set. -/
theorem save_totals_and_cost (u : LLMUsage) (m : LLMModel)
    (hm : u.model = some m) (h0 : u.cost_calculated = 0) :
    u.save.tokens_total = u.tokens_prompt + u.tokens_completion ∧
    u.save.cost_calculated =
      (u.tokens_prompt : ℚ) / 1000 * m.input_price +
        (u.tokens_completion : ℚ) / 1000 * m.output_price := by
  refine ⟨rfl, ?_⟩
  show (let tokens_total := u.tokens_prompt + u.tokens_completion
        match u.model with
        | some m =>
          if tokens_total > 0 then m.calculate_cost u.tokens_prompt u.tokens_completion
          else u.cost_calculated
        | none => u.cost_calculated) = _
  rw [hm]
  by_cases hpos : u.tokens_prompt + u.tokens_completion > 0
  · simp [hpos, LLMModel.calculate_cost]
  · have hp : u.tokens_prompt = 0 := by omega
    have hc : u.tokens_completion = 0 := by omega
    simp [hp, hc, h0]

/-- Witness for save_totals_and_cost at a concrete usage row. -/
theorem save_totals_and_cost_witness :
    (⟨some ⟨3, 7⟩, 10, 20, 0, 0, 0, "", ""⟩ : LLMUsage).model = some ⟨3, 7⟩ ∧
    (⟨some ⟨3, 7⟩, 10, 20, 0, 0, 0, "", ""⟩ : LLMUsage).cost_calculated = 0 ∧
    ((⟨some ⟨3, 7⟩, 10, 20, 0, 0, 0, "", ""⟩ : LLMUsage).save.tokens_total =
        (⟨some ⟨3, 7⟩, 10, 20, 0, 0, 0, "", ""⟩ : LLMUsage).tokens_prompt +
          (⟨some ⟨3, 7⟩, 10, 20, 0, 0, 0, "", ""⟩ : LLMUsage).tokens_completion ∧
      (⟨some ⟨3, 7⟩, 10, 20, 0, 0, 0, "", ""⟩ : LLMUsage).save.cost_calculated =
        ((⟨some ⟨3, 7⟩, 10, 20, 0, 0, 0, "", ""⟩ : LLMUsage).tokens_prompt : ℚ) / 1000 *
            (3 : ℚ) +
          ((⟨some ⟨3, 7⟩, 10, 20, 0, 0, 0, "", ""⟩ : LLMUsage).tokens_completion : ℚ) / 1000 *
            (7 : ℚ)) :=
  ⟨rfl, rfl, save_totals_and_cost ⟨some ⟨3, 7⟩, 10, 20, 0, 0, 0, "", ""⟩ ⟨3, 7⟩ rfl rfl⟩

/-- Helper: a sign call on an unsigned field saves the payload and timestamp
into the field row and then raises the NameError of line 482. -/
theorem sign_of_not_signed (c : Contract) (i : Nat) (f : SignatureField)
    (d : String) (t : Nat) (hf : c.signature_fields.get? i = some f)
    (hu : f.is_signed = false) :
    SignatureField.sign c i d t =
      (some (.nameError "FieldType"),
       { c with signature_fields :=
          c.signature_fields.set i { f with signed_data := d, signed_at := some t } }) := by
  unfold SignatureField.sign
  rw [hf]
  simp [hu]

/-- Helper: after a sign call on an unsigned field, reading the field back
gives the stored payload and timestamp. -/
theorem sign_get_after (c : Contract) (i : Nat) (f : SignatureField)
    (d : String) (t : Nat) (hf : c.signature_fields.get? i = some f)
    (hu : f.is_signed = false) :
    (SignatureField.sign c i d t).2.signature_fields.get? i =
      some { f with signed_data := d, signed_at := some t } := by
  have hlen : i < c.signature_fields.length := (List.get?_eq_some.mp hf).1
  rw [sign_of_not_signed c i f d t hf hu]
  simp [List.get?_eq_getElem?, hlen]

/-- Helper: a field that stores a non-blank payload and a timestamp satisfies
is_signed. -/
theorem is_signed_of_nonblank (f : SignatureField) (d : String) (t : Nat)
    (hd : d ≠ "") :
    ({ f with signed_data := d, signed_at := some t } : SignatureField).is_signed = true := by
  simp [SignatureField.is_signed, hd]

/-- Helper: a sign call on a field that satisfies is_signed raises the
already-signed ValidationError and leaves the state unchanged. -/
theorem sign_of_signed (c : Contract) (i : Nat) (f : SignatureField)
    (d : String) (t : Nat) (hf : c.signature_fields.get? i = some f)
    (hs : f.is_signed = true) :
    SignatureField.sign c i d t =
      (some (.validationError "Field has already been signed"), c) := by
  unfold SignatureField.sign
  rw [hf]
  simp [hs]

/-- C1 (code_bug evidence): sign never changes the contract status or
completed_at for any state and input — the completion re-check of line 488 is
unreachable behind the NameError of line 482 and no check_completion method
exists — and concretely, signing the single required field of a sent
contract raises the NameError, records the field as signed (so every required
field then has a non-blank signed_data), yet the status remains sent and
completed_at stays null. -/
theorem sign_never_completes (c : Contract) (i : Nat) (data : String) (now : Nat) :
    ((SignatureField.sign c i data now).2.status = c.status ∧
     (SignatureField.sign c i data now).2.completed_at = c.completed_at) ∧
    (SignatureField.sign
        (⟨.sent, some 0, none, none, [⟨.signature, true, some 0, "tok", "", none⟩]⟩ : Contract)
        0 "sig-blob" 9 =
      (some (.nameError "FieldType"),
       ⟨.sent, some 0, none, none, [⟨.signature, true, some 0, "tok", "sig-blob", some 9⟩]⟩) ∧
     (⟨.sent, some 0, none, none,
        [⟨.signature, true, some 0, "tok", "sig-blob", some 9⟩]⟩ : Contract).signature_fields.all
          (fun f => !f.required || f.signed_data != "") = true ∧
     (⟨.sent, some 0, none, none,
        [⟨.signature, true, some 0, "tok", "sig-blob", some 9⟩]⟩ : Contract).status ≠
          ContractStatus.completed) := by
  refine ⟨?_, by decide, by decide, by decide⟩
  unfold SignatureField.sign
  cases hget : c.signature_fields.get? i with
  | none => simp [hget]
  | some f =>
    by_cases hs : f.is_signed <;> simp [hs]

/-- C4: write-once — once a field has been signed (a non-blank payload, so it
satisfies is_signed), a second sign call with any data raises the
already-signed ValidationError (the AlreadySignedError of the spec taxonomy)
and leaves the state unchanged: the stored signed_data is still the first
payload. -/
theorem sign_twice_already_signed (c : Contract) (i : Nat)
    (f : SignatureField) (d1 d2 : String) (t1 t2 : Nat)
    (hf : c.signature_fields.get? i = some f)
    (hu : f.is_signed = false)
    (hd : d1 ≠ "") :
    SignatureField.sign (SignatureField.sign c i d1 t1).2 i d2 t2 =
      (some (.validationError "Field has already been signed"),
        (SignatureField.sign c i d1 t1).2) ∧
    (SignatureField.sign c i d1 t1).2.signature_fields.get? i =
      some { f with signed_data := d1, signed_at := some t1 } := by
  have hget2 := sign_get_after c i f d1 t1 hf hu
  refine ⟨?_, hget2⟩
  exact sign_of_signed _ i _ d2 t2 hget2 (is_signed_of_nonblank f d1 t1 hd)

/-- Witness for sign_twice_already_signed on a one-field contract. -/
theorem sign_twice_already_signed_witness :
    (⟨.sent, some 0, none, none,
        [⟨.signature, true, some 0, "tok", "", none⟩]⟩ : Contract).signature_fields.get? 0 =
      some (⟨.signature, true, some 0, "tok", "", none⟩ : SignatureField) ∧
    (⟨.signature, true, some 0, "tok", "", none⟩ : SignatureField).is_signed = false ∧
    ("first-sig" ≠ "") ∧
    (SignatureField.sign
        (SignatureField.sign
          (⟨.sent, some 0, none, none, [⟨.signature, true, some 0, "tok", "", none⟩]⟩ : Contract)
          0 "first-sig" 3).2 0 "second-sig" 4 =
      (some (.validationError "Field has already been signed"),
        (SignatureField.sign
          (⟨.sent, some 0, none, none, [⟨.signature, true, some 0, "tok", "", none⟩]⟩ : Contract)
          0 "first-sig" 3).2) ∧
    (SignatureField.sign
        (⟨.sent, some 0, none, none, [⟨.signature, true, some 0, "tok", "", none⟩]⟩ : Contract)
        0 "first-sig" 3).2.signature_fields.get? 0 =
      some { (⟨.signature, true, some 0, "tok", "", none⟩ : SignatureField) with
              signed_data := "first-sig", signed_at := some 3 }) :=
  ⟨rfl, rfl, by decide,
    sign_twice_already_signed
      (⟨.sent, some 0, none, none, [⟨.signature, true, some 0, "tok", "", none⟩]⟩ : Contract)
      0 (⟨.signature, true, some 0, "tok", "", none⟩ : SignatureField)
      "first-sig" "second-sig" 3 4 rfl rfl (by decide)⟩

/-- C10: sign persists the payload and timestamp of the field (the save of
line 479) before the later steps that raise: when the already-signed
precondition passes, the call raises the NameError of line 482, yet the
resulting database state holds the field as signed, and a retry of the same
call on that state raises the already-signed ValidationError — an error
response from the signing endpoint does not imply the field is unsigned. -/
theorem sign_persists_despite_raise (c : Contract) (i : Nat)
    (f : SignatureField) (d : String) (t1 t2 : Nat)
    (hf : c.signature_fields.get? i = some f)
    (hu : f.is_signed = false)
    (hd : d ≠ "") :
    (SignatureField.sign c i d t1).1 = some (.nameError "FieldType") ∧
    (SignatureField.sign c i d t1).2.signature_fields.get? i =
      some { f with signed_data := d, signed_at := some t1 } ∧
    (SignatureField.sign (SignatureField.sign c i d t1).2 i d t2).1 =
      some (.validationError "Field has already been signed") := by
  have hget2 := sign_get_after c i f d t1 hf hu
  refine ⟨?_, hget2, ?_⟩
  · rw [sign_of_not_signed c i f d t1 hf hu]
  · rw [sign_of_signed _ i _ d t2 hget2 (is_signed_of_nonblank f d t1 hd)]

/-- Witness for sign_persists_despite_raise on a one-field contract. -/
theorem sign_persists_despite_raise_witness :
    (⟨.sent, some 0, none, none,
        [⟨.text, false, some 0, "tok2", "", none⟩]⟩ : Contract).signature_fields.get? 0 =
      some (⟨.text, false, some 0, "tok2", "", none⟩ : SignatureField) ∧
    (⟨.text, false, some 0, "tok2", "", none⟩ : SignatureField).is_signed = false ∧
    ("payload" ≠ "") ∧
    ((SignatureField.sign
        (⟨.sent, some 0, none, none, [⟨.text, false, some 0, "tok2", "", none⟩]⟩ : Contract)
        0 "payload" 6).1 = some (.nameError "FieldType") ∧
    (SignatureField.sign
        (⟨.sent, some 0, none, none, [⟨.text, false, some 0, "tok2", "", none⟩]⟩ : Contract)
        0 "payload" 6).2.signature_fields.get? 0 =
      some { (⟨.text, false, some 0, "tok2", "", none⟩ : SignatureField) with
              signed_data := "payload", signed_at := some 6 } ∧
    (SignatureField.sign
        (SignatureField.sign
          (⟨.sent, some 0, none, none, [⟨.text, false, some 0, "tok2", "", none⟩]⟩ : Contract)
          0 "payload" 6).2 0 "payload" 7).1 =
      some (.validationError "Field has already been signed")) :=
  ⟨rfl, rfl, by decide,
    sign_persists_despite_raise
      (⟨.sent, some 0, none, none, [⟨.text, false, some 0, "tok2", "", none⟩]⟩ : Contract)
      0 (⟨.text, false, some 0, "tok2", "", none⟩ : SignatureField)
      "payload" 6 7 rfl rfl (by decide)⟩

/-- C5: send_for_signature on a non-draft contract raises the only-draft
ValidationError (the InvalidStateError of the spec taxonomy), and on a draft
contract with any field whose assigned_to is null raises the
unassigned-fields ValidationError; in both cases the returned state is the
input state unchanged — both raises precede every assignment, so the status
stays draft and no token, sent_at or expires_at is touched. -/
theorem send_preconditions (c : Contract) (now : Nat) :
    (c.status ≠ ContractStatus.draft →
      c.send_for_signature now =
        (some (.validationError "Only draft contracts can be sent for signature"), c)) ∧
    (c.status = ContractStatus.draft →
      (∃ f ∈ c.signature_fields, f.assigned_to = none) →
      c.send_for_signature now =
        (some (.validationError "All signature fields must be assigned before sending"), c)) := by
  constructor
  · intro h
    have hb : (c.status != ContractStatus.draft) = true := by
      simp [bne_iff_ne, h]
    simp [Contract.send_for_signature, hb]
  · rintro h1 ⟨f, hf, hnone⟩
    have hb : (c.status != ContractStatus.draft) = false := by simp [h1]
    have ha : c.signature_fields.any (fun f => f.assigned_to.isNone) = true := by
      simp only [List.any_eq_true]
      exact ⟨f, hf, by simp [hnone]⟩
    simp [Contract.send_for_signature, hb, ha]

/-- Witness for send_preconditions: a sent contract is rejected for state, a
draft contract with an unassigned field is rejected for assignment, both
unchanged. -/
theorem send_preconditions_witness :
    ((⟨.sent, none, none, none, []⟩ : Contract).status ≠ ContractStatus.draft ∧
      (⟨.sent, none, none, none, []⟩ : Contract).send_for_signature 1 =
        (some (.validationError "Only draft contracts can be sent for signature"),
          (⟨.sent, none, none, none, []⟩ : Contract))) ∧
    ((⟨.draft, none, none, none,
        [⟨.signature, true, none, "", "", none⟩]⟩ : Contract).status = ContractStatus.draft ∧
      (⟨.draft, none, none, none,
        [⟨.signature, true, none, "", "", none⟩]⟩ : Contract).send_for_signature 1 =
        (some (.validationError "All signature fields must be assigned before sending"),
          (⟨.draft, none, none, none, [⟨.signature, true, none, "", "", none⟩]⟩ : Contract))) :=
  ⟨⟨by decide, (send_preconditions (⟨.sent, none, none, none, []⟩ : Contract) 1).1 (by decide)⟩,
   ⟨rfl, (send_preconditions
      (⟨.draft, none, none, none, [⟨.signature, true, none, "", "", none⟩]⟩ : Contract) 1).2 rfl
      ⟨(⟨.signature, true, none, "", "", none⟩ : SignatureField), by simp, rfl⟩⟩⟩

/-- C6 (code_bug evidence): on a draft contract whose fields are all
assigned, send_for_signature succeeds, sets status to sent, stamps sent_at,
defaults expires_at to now plus 30 days when unset — but leaves every stored
signature field row, in particular its signing_token, unchanged: the tokens
generated by the loop at models.py 306-307 are assigned to transient queryset
instances and never saved, so no fresh token is stored for any field. -/
theorem send_success_stores_no_token (c : Contract) (now : Nat)
    (hd : c.status = ContractStatus.draft)
    (ha : ∀ f ∈ c.signature_fields, f.assigned_to ≠ none) :
    (c.send_for_signature now).1 = none ∧
    (c.send_for_signature now).2.status = ContractStatus.sent ∧
    (c.send_for_signature now).2.sent_at = some now ∧
    (c.send_for_signature now).2.expires_at =
      (match c.expires_at with
        | none => some (now + 30 * 86400)
        | some e => some e) ∧
    (c.send_for_signature now).2.signature_fields = c.signature_fields := by
  have hb : (c.status != ContractStatus.draft) = false := by simp [hd]
  have hany : c.signature_fields.any (fun f => f.assigned_to.isNone) = false := by
    rw [Bool.eq_false_iff]
    intro hcontra
    rcases List.any_eq_true.mp hcontra with ⟨f, hf, hnone⟩
    exact ha f hf (Option.isNone_iff_eq_none.mp hnone)
  simp [Contract.send_for_signature, hb, hany]

/-- Witness for send_success_stores_no_token: a draft contract with one
assigned field whose stored signing_token is blank keeps a blank stored token
after a successful send. -/
theorem send_success_stores_no_token_witness :
    (⟨.draft, none, none, none,
      [⟨.signature, true, some 0, "", "", none⟩]⟩ : Contract).status = ContractStatus.draft ∧
    (∀ f ∈ (⟨.draft, none, none, none,
      [⟨.signature, true, some 0, "", "", none⟩]⟩ : Contract).signature_fields,
        f.assigned_to ≠ none) ∧
    (((⟨.draft, none, none, none,
        [⟨.signature, true, some 0, "", "", none⟩]⟩ : Contract).send_for_signature 5).1 = none ∧
     ((⟨.draft, none, none, none,
        [⟨.signature, true, some 0, "", "", none⟩]⟩ : Contract).send_for_signature 5).2.status =
        ContractStatus.sent ∧
     ((⟨.draft, none, none, none,
        [⟨.signature, true, some 0, "", "", none⟩]⟩ : Contract).send_for_signature 5).2.sent_at =
        some 5 ∧
     ((⟨.draft, none, none, none,
        [⟨.signature, true, some 0, "", "", none⟩]⟩ : Contract).send_for_signature 5).2.expires_at =
        (match (⟨.draft, none, none, none,
          [⟨.signature, true, some 0, "", "", none⟩]⟩ : Contract).expires_at with
          | none => some (5 + 30 * 86400)
          | some e => some e) ∧
     ((⟨.draft, none, none, none,
        [⟨.signature, true, some 0, "", "", none⟩]⟩ : Contract).send_for_signature
          5).2.signature_fields =
        (⟨.draft, none, none, none,
          [⟨.signature, true, some 0, "", "", none⟩]⟩ : Contract).signature_fields) :=
  ⟨rfl, by decide,
    send_success_stores_no_token
      (⟨.draft, none, none, none, [⟨.signature, true, some 0, "", "", none⟩]⟩ : Contract) 5 rfl
      (by decide)⟩

end Docbiz
